import Mathlib

/-
Verification of the pitch-bird static file server (src/app.py).

The server is a FastAPI application with five named GET routes backed by
files in the working directory, a /health JSON endpoint, a StaticFiles
mount at /static rooted at ".", and a __main__ block configuring uvicorn
from the PORT environment variable.

The embedding models the working directory as a finite map from relative
paths (lists of path segments) to byte contents.  Each request handler is
translated from src/app.py; the semantics of the framework primitives the
handlers call (FileResponse, StaticFiles, route dispatch) is modelled from
the behaviour of the FastAPI/Starlette library functions named at each
definition.  Handlers return a response paired with a list of filesystem
effects, so that read-only behaviour is a provable statement rather than a
modelling assumption.
-/

namespace PitchBird

/-- File contents as a list of bytes. -/
abbrev Bytes := List Nat

/-- The working directory: a finite map from relative paths (segment lists)
to file contents.  This is the only state the server reads. -/
abbrev FS := List (List String × Bytes)

/-- Lookup of a relative path in the working directory. -/
def fsLookup : FS → List String → Option Bytes
  | [], _ => none
  | (k, v) :: rest, p => if p = k then some v else fsLookup rest p

/-- Response bodies: raw file bytes, a JSON object of string fields, or
plain text. -/
inductive Body where
  | bytes (b : Bytes)
  | json (fields : List (String × String))
  | text (s : String)
  deriving DecidableEq, Repr

/-- An HTTP response: status code, Content-Type header value, body. -/
structure Response where
  status : Nat
  mediaType : Option String
  body : Body
  deriving DecidableEq, Repr

/-- Filesystem / external effects a handler may perform.  The type has
write and outbound-call constructors so that their absence from every
trace is a meaningful theorem. -/
inductive Effect where
  | read (p : List String)
  | write (p : List String) (b : Bytes)
  | outbound (target : String)
  deriving DecidableEq, Repr

/-- Whether an effect is a pure read. -/
def Effect.isRead : Effect → Bool
  | .read _ => true
  | _ => false

/-- Applying one effect to the working directory: reads and outbound calls
leave it unchanged, a write updates it. -/
def applyEffect (fs : FS) : Effect → FS
  | .read _ => fs
  | .write p b => (p, b) :: fs
  | .outbound _ => fs

/-- Applying a whole effect trace to the working directory. -/
def applyTrace (fs : FS) (t : List Effect) : FS :=
  t.foldl applyEffect fs

/-- An HTTP request: method, path segments (GET / is [], GET /audio.js is
["audio.js"]), plus headers and a request body that no handler reads. -/
structure Request where
  method : String
  path : List String
  headers : List (String × String)
  reqBody : Bytes

/-- Extension of a file name: the part after the last dot (the whole name
when it has no dot, which the media-type table below maps to the same
fallback as an unknown extension). -/
def extOf (name : String) : String :=
  String.mk ((name.toList.reverse.takeWhile (fun c => c ≠ '.')).reverse)

/-- Media type by extension, as Python mimetypes.guess_type resolves the
extensions occurring in this repository; Starlette FileResponse falls back
to text/plain when no type is guessed. -/
def mimeOfExt (e : String) : String :=
  if e = "html" then "text/html"
  else if e = "js" then "text/javascript"
  else if e = "css" then "text/css"
  else if e = "json" then "application/json"
  else "text/plain"

/-- Inferred media type of a path: guessed from the last segment. -/
def guessType (p : List String) : String :=
  mimeOfExt (extOf (p.getLastD ""))

/-- FastAPI default JSON 404 response. -/
def notFoundResp : Response :=
  ⟨404, some "application/json", Body.json [("detail", "Not Found")]⟩

/-- FastAPI default JSON 405 response for a path registered under a
different method. -/
def methodNotAllowedResp : Response :=
  ⟨405, some "application/json", Body.json [("detail", "Method Not Allowed")]⟩

/-- Starlette ServerErrorMiddleware response: an unhandled exception in a
handler is converted into a plain-text 500; the process keeps serving. -/
def serverErrorResp : Response :=
  ⟨500, some "text/plain", Body.text "Internal Server Error"⟩

/-- Model of fastapi.responses.FileResponse(path, media_type): when the
file exists it is served with status 200, its full byte content, and the
explicit media type (or the inferred one when none is given).  When the
file is absent, Starlette FileResponse raises RuntimeError at send time
(it has no 404 branch), which the server error middleware turns into the
500 response; either way the handler performed one read attempt. -/
def FileResponse (fs : FS) (path : List String) (media_type : Option String) :
    Response × List Effect :=
  match fsLookup fs path with
  | some c =>
      (⟨200, some (media_type.getD (guessType path)), Body.bytes c⟩, [Effect.read path])
  | none => (serverErrorResp, [Effect.read path])

/-- Handler of GET / (src/app.py line 14): serve index.html, media type
inferred. -/
def read_root (fs : FS) : Response × List Effect :=
  FileResponse fs ["index.html"] none

/-- Handler of GET /audio.js (src/app.py line 20). -/
def serve_audio_js (fs : FS) : Response × List Effect :=
  FileResponse fs ["audio.js"] (some "application/javascript")

/-- Handler of GET /game.js (src/app.py line 25). -/
def serve_game_js (fs : FS) : Response × List Effect :=
  FileResponse fs ["game.js"] (some "application/javascript")

/-- Handler of GET /main.js (src/app.py line 30). -/
def serve_main_js (fs : FS) : Response × List Effect :=
  FileResponse fs ["main.js"] (some "application/javascript")

/-- Handler of GET /style.css (src/app.py line 35). -/
def serve_css (fs : FS) : Response × List Effect :=
  FileResponse fs ["style.css"] (some "text/css")

/-- Handler of GET /health (src/app.py line 40): fixed JSON payload, no
effects. -/
def health_check : Response × List Effect :=
  (⟨200, some "application/json", Body.json [("status", "healthy")]⟩, [])

/-- One step of os.path.normpath over path segments, with the segments
seen so far held in reverse: empty and "." segments are dropped, ".."
cancels the previous segment when one is available and accumulates
otherwise. -/
def normStep (acc : List String) (seg : String) : List String :=
  if seg = "" then acc
  else if seg = "." then acc
  else if seg = ".." then
    match acc with
    | [] => [".."]
    | top :: rest => if top = ".." then seg :: acc else rest
  else seg :: acc

/-- os.path.normpath on a relative path given as segments, as
starlette.staticfiles.StaticFiles.get_path applies it to the request
path below the mount. -/
def normSegs (segs : List String) : List String :=
  (segs.foldl normStep []).reverse

/-- Model of starlette.staticfiles.StaticFiles(directory=".") on a GET
request: the path below /static is normalised; a normalised path that
still starts with ".." escapes the mounted directory and is rejected with
404 before any file access; otherwise the file is served with an inferred
media type when present and 404 is returned when absent. -/
def staticFiles (fs : FS) (raw : List String) : Response × List Effect :=
  if (normSegs raw).head? = some ".." then (notFoundResp, [])
  else
    match fsLookup fs (normSegs raw) with
    | some c =>
        (⟨200, some (guessType (normSegs raw)), Body.bytes c⟩, [Effect.read (normSegs raw)])
    | none => (notFoundResp, [Effect.read (normSegs raw)])

/-- Dispatch of a route registered with @app.get: FastAPI APIRoute
registers exactly the GET method (it does not add HEAD), and Starlette
answers a matched path with an unregistered method with 405. -/
def dispatchGET (m : String) (r : Response × List Effect) : Response × List Effect :=
  if m = "GET" then r else (methodNotAllowedResp, [])

/-- The routing table of src/app.py: the /static mount (line 12) is
matched by path prefix; the named routes match their exact paths for GET;
any other path is 404.  StaticFiles itself accepts GET and HEAD and
answers other methods with 405. -/
def appCore (fs : FS) (m : String) (p : List String) : Response × List Effect :=
  if p.head? = some "static" then
    (if m = "GET" ∨ m = "HEAD" then staticFiles fs p.tail else (methodNotAllowedResp, []))
  else if p = [] then dispatchGET m (read_root fs)
  else if p = ["audio.js"] then dispatchGET m (serve_audio_js fs)
  else if p = ["game.js"] then dispatchGET m (serve_game_js fs)
  else if p = ["main.js"] then dispatchGET m (serve_main_js fs)
  else if p = ["style.css"] then dispatchGET m (serve_css fs)
  else if p = ["health"] then dispatchGET m health_check
  else (notFoundResp, [])

/-- The application: a request is dispatched on its method and path
only. -/
def app (fs : FS) (req : Request) : Response × List Effect :=
  appCore fs req.method req.path

/-- The response the server sends for a request. -/
def handle (fs : FS) (req : Request) : Response :=
  (app fs req).1

/-- The effects the server performs while handling a request. -/
def reqTrace (fs : FS) (req : Request) : List Effect :=
  (app fs req).2

/-- Environment of the process: a partial map from variable names to
values. -/
abbrev Env := String → Option String

/-- Accumulator for parsing a decimal digit string. -/
def decDigitsAux : List Char → Nat → Option Nat
  | [], acc => some acc
  | c :: cs, acc =>
      if c.isDigit then decDigitsAux cs (acc * 10 + (c.toNat - 48)) else none

/-- Model of Python int() on the strings this program feeds it: an
optional sign followed by decimal digits; anything else (including the
empty string) makes int() raise, modelled as none. -/
def pyInt (s : String) : Option Int :=
  match s.toList with
  | [] => none
  | '-' :: [] => none
  | '-' :: cs => (decDigitsAux cs 0).map (fun n => -(n : Int))
  | '+' :: [] => none
  | '+' :: cs => (decDigitsAux cs 0).map (fun n => (n : Int))
  | cs => (decDigitsAux cs 0).map (fun n => (n : Int))

/-- Model of the __main__ block (src/app.py line 47):
port = int(os.getenv("PORT", "8000")); an unparsable value makes startup
fail, hence Option. -/
def configuredPort (env : Env) : Option Int :=
  pyInt ((env "PORT").getD "8000")

/-- Model of the __main__ block (src/app.py line 48): uvicorn.run is given
the fixed wildcard bind address, which accepts connections on every
interface. -/
def bindHost : String :=
  "0.0.0.0"

/-- A concrete working directory holding every file the named routes and
the repository use, for evaluating the theorems below. -/
def sampleFS : FS :=
  [(["index.html"], [60, 104]), (["audio.js"], [97]), (["game.js"], [103]),
   (["main.js"], [109]), (["style.css"], [99]), (["app.py"], [35, 33])]

/-- C1: for every named route whose backing file exists in the working
directory, the response is HTTP 200, the body is the file's full byte
content, and the Content-Type is the specified media type:
application/javascript for the three script routes, text/css for
/style.css, and the inferred text/html for /. -/
theorem named_routes_serve_existing_files (fs : FS) (hs : List (String × String))
    (bd : Bytes) (c1 c2 c3 c4 c5 : Bytes) :
    (fsLookup fs ["index.html"] = some c1 →
      handle fs ⟨"GET", [], hs, bd⟩ = ⟨200, some "text/html", Body.bytes c1⟩) ∧
    (fsLookup fs ["audio.js"] = some c2 →
      handle fs ⟨"GET", ["audio.js"], hs, bd⟩ =
        ⟨200, some "application/javascript", Body.bytes c2⟩) ∧
    (fsLookup fs ["game.js"] = some c3 →
      handle fs ⟨"GET", ["game.js"], hs, bd⟩ =
        ⟨200, some "application/javascript", Body.bytes c3⟩) ∧
    (fsLookup fs ["main.js"] = some c4 →
      handle fs ⟨"GET", ["main.js"], hs, bd⟩ =
        ⟨200, some "application/javascript", Body.bytes c4⟩) ∧
    (fsLookup fs ["style.css"] = some c5 →
      handle fs ⟨"GET", ["style.css"], hs, bd⟩ =
        ⟨200, some "text/css", Body.bytes c5⟩) := by
  refine ⟨fun h => ?_, fun h => ?_, fun h => ?_, fun h => ?_, fun h => ?_⟩ <;>
    simp [handle, app, appCore, dispatchGET, read_root, serve_audio_js, serve_game_js,
      serve_main_js, serve_css, FileResponse, h, guessType, extOf, mimeOfExt]

/-- Evaluation of the named-route theorem on a concrete working directory
holding all five backing files. -/
theorem named_routes_serve_existing_files_witness :
    handle sampleFS ⟨"GET", [], [], []⟩ = ⟨200, some "text/html", Body.bytes [60, 104]⟩ ∧
    handle sampleFS ⟨"GET", ["audio.js"], [], []⟩ =
      ⟨200, some "application/javascript", Body.bytes [97]⟩ ∧
    handle sampleFS ⟨"GET", ["style.css"], [], []⟩ =
      ⟨200, some "text/css", Body.bytes [99]⟩ :=
  ⟨(named_routes_serve_existing_files sampleFS [] [] [60, 104] [97] [103] [109] [99]).1
      (by decide),
   (named_routes_serve_existing_files sampleFS [] [] [60, 104] [97] [103] [109] [99]).2.1
      (by decide),
   (named_routes_serve_existing_files sampleFS [] [] [60, 104] [97] [103] [109] [99]).2.2.2.2
      (by decide)⟩

/-- C2 counterexample: with an empty working directory, GET /audio.js is
answered with status 500 (the FileResponse missing-file RuntimeError
converted by the server error middleware), not with the claimed 404. -/
theorem named_route_missing_file_counterexample :
    (handle [] ⟨"GET", ["audio.js"], [], []⟩).status = 500 ∧
    ¬ (handle [] ⟨"GET", ["audio.js"], [], []⟩).status = 404 := by
  decide

/-- C2 amended: for every named route whose backing file is absent, the
response is the 500 internal-server-error response (the handler itself is
total, so the process keeps serving), and a missing file affects only its
own route: other routes with present files, and /health, answer normally. -/
theorem named_routes_missing_file_500 (fs : FS) (hs : List (String × String))
    (bd : Bytes) (c : Bytes) :
    (fsLookup fs ["index.html"] = none →
      handle fs ⟨"GET", [], hs, bd⟩ = serverErrorResp) ∧
    (fsLookup fs ["audio.js"] = none →
      handle fs ⟨"GET", ["audio.js"], hs, bd⟩ = serverErrorResp) ∧
    (fsLookup fs ["game.js"] = none →
      handle fs ⟨"GET", ["game.js"], hs, bd⟩ = serverErrorResp) ∧
    (fsLookup fs ["main.js"] = none →
      handle fs ⟨"GET", ["main.js"], hs, bd⟩ = serverErrorResp) ∧
    (fsLookup fs ["style.css"] = none →
      handle fs ⟨"GET", ["style.css"], hs, bd⟩ = serverErrorResp) ∧
    (fsLookup fs ["index.html"] = none → fsLookup fs ["style.css"] = some c →
      handle fs ⟨"GET", ["style.css"], hs, bd⟩ = ⟨200, some "text/css", Body.bytes c⟩) ∧
    (handle fs ⟨"GET", ["health"], hs, bd⟩ =
      ⟨200, some "application/json", Body.json [("status", "healthy")]⟩) := by
  refine ⟨fun h => ?_, fun h => ?_, fun h => ?_, fun h => ?_, fun h => ?_,
    fun _ h => ?_, rfl⟩ <;>
    simp [handle, app, appCore, dispatchGET, read_root, serve_audio_js, serve_game_js,
      serve_main_js, serve_css, FileResponse, h, guessType, extOf, mimeOfExt,
      serverErrorResp]

/-- Evaluation of the amended missing-file theorem on a working directory
holding only style.css: the routes with absent files answer 500 while
/style.css still answers 200. -/
theorem named_routes_missing_file_500_witness :
    handle [(["style.css"], [99])] ⟨"GET", [], [], []⟩ = serverErrorResp ∧
    handle [(["style.css"], [99])] ⟨"GET", ["audio.js"], [], []⟩ = serverErrorResp ∧
    handle [(["style.css"], [99])] ⟨"GET", ["style.css"], [], []⟩ =
      ⟨200, some "text/css", Body.bytes [99]⟩ :=
  ⟨(named_routes_missing_file_500 [(["style.css"], [99])] [] [] [99]).1 (by decide),
   (named_routes_missing_file_500 [(["style.css"], [99])] [] [] [99]).2.1 (by decide),
   (named_routes_missing_file_500 [(["style.css"], [99])] [] [] [99]).2.2.2.2.2.1
      (by decide) (by decide)⟩

/-- C3: GET /health answers HTTP 200 with the JSON object having exactly
the field status = healthy, for every working-directory state, and its
effect trace is empty: the handler touches no file. -/
theorem health_always_200 (fs : FS) (hs : List (String × String)) (bd : Bytes) :
    handle fs ⟨"GET", ["health"], hs, bd⟩ =
      ⟨200, some "application/json", Body.json [("status", "healthy")]⟩ ∧
    reqTrace fs ⟨"GET", ["health"], hs, bd⟩ = [] := by
  exact ⟨rfl, rfl⟩

/-- C4: GET /static/(path) serves exactly the file at the normalised path
inside the working directory when it exists, answers 404 when it does not
exist or when the path escapes the working directory, and a 200 answer
always carries the content of some non-escaping file of the working
directory. -/
theorem static_mount_serves_only_inside (fs : FS) (raw : List String)
    (hs : List (String × String)) (bd : Bytes) (c : Bytes) :
    ((normSegs raw).head? ≠ some ".." → fsLookup fs (normSegs raw) = some c →
      handle fs ⟨"GET", "static" :: raw, hs, bd⟩ =
        ⟨200, some (guessType (normSegs raw)), Body.bytes c⟩) ∧
    (fsLookup fs (normSegs raw) = none →
      (handle fs ⟨"GET", "static" :: raw, hs, bd⟩).status = 404) ∧
    ((normSegs raw).head? = some ".." →
      (handle fs ⟨"GET", "static" :: raw, hs, bd⟩).status = 404) ∧
    ((handle fs ⟨"GET", "static" :: raw, hs, bd⟩).status = 200 →
      ∃ p cc, p.head? ≠ some ".." ∧ fsLookup fs p = some cc ∧
        (handle fs ⟨"GET", "static" :: raw, hs, bd⟩).body = Body.bytes cc) := by
  have hst : handle fs ⟨"GET", "static" :: raw, hs, bd⟩ = (staticFiles fs raw).1 := rfl
  rw [hst]
  by_cases hesc : (normSegs raw).head? = some ".."
  · refine ⟨fun hne _ => absurd hesc hne, fun _ => ?_, fun _ => ?_, fun h200 => ?_⟩
    · simp [staticFiles, hesc, notFoundResp]
    · simp [staticFiles, hesc, notFoundResp]
    · exact absurd h200 (by simp [staticFiles, hesc, notFoundResp])
  · cases hlk : fsLookup fs (normSegs raw) with
    | none =>
        refine ⟨fun _ hsome => ?_, fun _ => ?_, fun habs => absurd habs hesc,
          fun h200 => ?_⟩
        · cases hsome
        · simp [staticFiles, hesc, hlk, notFoundResp]
        · exact absurd h200 (by simp [staticFiles, hesc, hlk, notFoundResp])
    | some cc =>
        refine ⟨fun _ hsome => ?_, fun hnone => ?_, fun habs => absurd habs hesc,
          fun _ => ?_⟩
        · cases hsome
          simp [staticFiles, hesc, hlk]
        · cases hnone
        · exact ⟨normSegs raw, cc, hesc, hlk, by simp [staticFiles, hesc, hlk]⟩

/-- Evaluation of the static-mount theorem: an existing file is served,
a parent-directory traversal is rejected with 404, and a missing file is
404. -/
theorem static_mount_serves_only_inside_witness :
    handle sampleFS ⟨"GET", ["static", "game.js"], [], []⟩ =
      ⟨200, some "text/javascript", Body.bytes [103]⟩ ∧
    (handle sampleFS ⟨"GET", ["static", "..", "game.js"], [], []⟩).status = 404 ∧
    (handle sampleFS ⟨"GET", ["static", "nope.txt"], [], []⟩).status = 404 :=
  ⟨(static_mount_serves_only_inside sampleFS ["game.js"] [] [] [103]).1
      (by decide) (by decide),
   (static_mount_serves_only_inside sampleFS ["..", "game.js"] [] [] []).2.2.1
      (by decide),
   (static_mount_serves_only_inside sampleFS ["nope.txt"] [] [] []).2.1
      (by decide)⟩

/-- C5: the listening port is computed from the single environment
variable PORT, defaulting to 8000 when it is unset, and the bind address
is the fixed wildcard address accepting connections on any interface. -/
theorem port_configuration (e1 e2 : Env) :
    (e1 "PORT" = none → configuredPort e1 = some 8000) ∧
    (e1 "PORT" = e2 "PORT" → configuredPort e1 = configuredPort e2) ∧
    bindHost = "0.0.0.0" := by
  refine ⟨fun h => ?_, fun h => ?_, rfl⟩
  · simp [configuredPort, h]
    decide
  · simp [configuredPort, h]

/-- Evaluation of the port-configuration theorem on the empty environment
and on two environments agreeing on PORT. -/
theorem port_configuration_witness :
    configuredPort (fun _ => none) = some 8000 ∧
    configuredPort (fun _ => some "9000") =
      configuredPort (fun v => if v = "PORT" then some "9000" else none) :=
  ⟨(port_configuration (fun _ => none) (fun _ => none)).1 rfl,
   (port_configuration (fun _ => some "9000")
      (fun v => if v = "PORT" then some "9000" else none)).2.1 (by simp)⟩

/-- C6: every request handler is read-only: each effect in the trace of
every request is a read, and applying the trace to the working directory
leaves it unchanged. -/
theorem handlers_read_only (fs : FS) (req : Request) :
    (∀ e ∈ reqTrace fs req, e.isRead = true) ∧
    applyTrace fs (reqTrace fs req) = fs := by
  have hfr : ∀ (p : List String) (mt : Option String) (e : Effect),
      e ∈ (FileResponse fs p mt).2 → e.isRead = true := by
    intro p mt e he
    unfold FileResponse at he
    cases h : fsLookup fs p <;> simp [h] at he <;> simp [he, Effect.isRead]
  have hsf : ∀ (raw : List String) (e : Effect),
      e ∈ (staticFiles fs raw).2 → e.isRead = true := by
    intro raw e he
    unfold staticFiles at he
    by_cases hesc : (normSegs raw).head? = some ".."
    · simp [hesc] at he
    · rw [if_neg hesc] at he
      cases h : fsLookup fs (normSegs raw) <;> simp [h] at he <;>
        simp [he, Effect.isRead]
  have key : ∀ e ∈ reqTrace fs req, e.isRead = true := by
    intro e he
    have he2 : e ∈ (appCore fs req.method req.path).2 := he
    unfold appCore dispatchGET at he2
    split_ifs at he2 <;>
      first
        | exact hsf _ e he2
        | exact hfr _ _ e he2
        | simp [health_check] at he2
  have ap : ∀ (t : List Effect) (g : FS),
      (∀ e ∈ t, e.isRead = true) → applyTrace g t = g := by
    intro t
    induction t with
    | nil => intro g _; rfl
    | cons e t ih =>
        intro g h
        have he := h e (by simp)
        have ht : ∀ x ∈ t, x.isRead = true := fun x hx => h x (by simp [hx])
        cases e with
        | read p => simpa [applyTrace, List.foldl, applyEffect] using ih g ht
        | write p b => simp [Effect.isRead] at he
        | outbound s => simp [Effect.isRead] at he
  exact ⟨key, ap _ fs key⟩

/-- C8: a request to a named route path with any method other than GET is
answered with 405 Method Not Allowed, for every working-directory state. -/
theorem non_get_named_routes_405 (fs : FS) (m : String) (hs : List (String × String))
    (bd : Bytes) (hm : m ≠ "GET") :
    (handle fs ⟨m, [], hs, bd⟩).status = 405 ∧
    (handle fs ⟨m, ["audio.js"], hs, bd⟩).status = 405 ∧
    (handle fs ⟨m, ["game.js"], hs, bd⟩).status = 405 ∧
    (handle fs ⟨m, ["main.js"], hs, bd⟩).status = 405 ∧
    (handle fs ⟨m, ["style.css"], hs, bd⟩).status = 405 ∧
    (handle fs ⟨m, ["health"], hs, bd⟩).status = 405 := by
  refine ⟨?_, ?_, ?_, ?_, ?_, ?_⟩ <;>
    simp [handle, app, appCore, dispatchGET, hm, methodNotAllowedResp]

/-- Evaluation of the method-dispatch theorem: POST requests to / and to
/health are both answered 405. -/
theorem non_get_named_routes_405_witness :
    (handle [] ⟨"POST", [], [], []⟩).status = 405 ∧
    (handle [] ⟨"POST", ["health"], [], []⟩).status = 405 :=
  ⟨(non_get_named_routes_405 [] "POST" [] [] (by decide)).1,
   (non_get_named_routes_405 [] "POST" [] [] (by decide)).2.2.2.2.2⟩

/-- C9: the static mount is rooted at the working directory itself, so
every file present there under a plain name, the server source app.py
included, is served verbatim at /static/(name). -/
theorem static_mount_serves_workdir_files (fs : FS) (name : String)
    (hs : List (String × String)) (bd : Bytes) (c : Bytes)
    (h0 : name ≠ "") (h1 : name ≠ ".") (h2 : name ≠ "..")
    (h : fsLookup fs [name] = some c) :
    handle fs ⟨"GET", ["static", name], hs, bd⟩ =
      ⟨200, some (guessType [name]), Body.bytes c⟩ := by
  have hn : normSegs [name] = [name] := by
    simp [normSegs, normStep, h0, h1, h2]
  simp [handle, app, appCore, staticFiles, hn, h, h2]

/-- Evaluation of the working-directory reachability theorem at the
server's own source file: GET /static/app.py serves app.py verbatim. -/
theorem static_mount_serves_workdir_files_witness :
    handle sampleFS ⟨"GET", ["static", "app.py"], [], []⟩ =
      ⟨200, some "text/plain", Body.bytes [35, 33]⟩ := by
  have h := static_mount_serves_workdir_files sampleFS "app.py" [] [] [35, 33]
    (by decide) (by decide) (by decide) (by decide)
  have hg : guessType ["app.py"] = "text/plain" := by decide
  rw [hg] at h
  exact h

/-- C10: every route handler is deterministic in the method, the path and
the working directory: requests agreeing on method and path receive the
same response and the same effect trace, whatever their headers and
bodies. -/
theorem handlers_deterministic (fs : FS) (r1 r2 : Request)
    (hm : r1.method = r2.method) (hp : r1.path = r2.path) :
    handle fs r1 = handle fs r2 ∧ reqTrace fs r1 = reqTrace fs r2 := by
  constructor <;> simp [handle, reqTrace, app, hm, hp]

/-- Evaluation of the determinism theorem on two GET /health requests
differing in headers and body. -/
theorem handlers_deterministic_witness :
    handle sampleFS ⟨"GET", ["health"], [("x", "1")], [7]⟩ =
      handle sampleFS ⟨"GET", ["health"], [], []⟩ :=
  (handlers_deterministic sampleFS ⟨"GET", ["health"], [("x", "1")], [7]⟩
    ⟨"GET", ["health"], [], []⟩ rfl rfl).1

end PitchBird
